import Mathlib

/-!
# Shallow embedding of the simple-blog Flask application (src/main.py)

Storage is a relational database with three tables (`user`, `blog_posts`,
`comment`); we model it as lists of records.  Row identifiers are integer
primary keys assigned by SQLite as `max(existing id) + 1`.  The session is the
optional id carried by the signed cookie; `current_user` rehydrates it through
the `load_user` callback (`User.query.get(id)`), and a session whose id has no
matching record behaves as anonymous.

Each route handler becomes a function from the database, the session and the
(already validated) form data to a `HandlerResult`: the HTTP response, the
database and session after the request, and the flash messages emitted.
`form = none` models a GET request or a submission that failed form
validation (`validate_on_submit()` returned false); `form = some f` models a
validated POST.

Python failure modes are modelled explicitly: an uncaught exception
(AttributeError on a missing attribute or on `None`, SQLAlchemy errors from
`db.session.delete(None)` or from a UNIQUE-constraint violation at commit)
becomes `Response.fault`, which carries HTTP status 500.  The password hash
functions of werkzeug are external collaborators and are passed in as
parameters (`genHash`, `checkHash`).
-/

namespace SimpleBlog

/-- Row of table `user` (class User): id primary key, email, name,
password (a salted hash, as written by `register`). -/
structure User where
  id : Nat
  email : String
  name : String
  password : String
deriving DecidableEq, Repr

/-- Row of table `blog_posts` (class BlogPost): id primary key, title
(UNIQUE), subtitle, date (human-readable string), body, img_url, and the
foreign key user_id.  The class also declares relationship attributes
`user` and `comment`; it declares no attribute named `author`. -/
structure BlogPost where
  id : Nat
  title : String
  subtitle : String
  date : String
  body : String
  img_url : String
  user_id : Nat
deriving DecidableEq, Repr

/-- Row of table `comment` (class Comment): id primary key, comment text,
foreign keys user_id and post_id. -/
structure Comment where
  id : Nat
  comment : String
  user_id : Nat
  post_id : Nat
deriving DecidableEq, Repr

/-- The attribute names defined by class BlogPost (columns plus the two
relationship attributes).  Reading any other attribute raises
AttributeError in Python. -/
def blogPostAttrs : List String :=
  ["id", "title", "subtitle", "date", "body", "img_url", "user_id", "user", "comment"]

def blogPostHasAttr (a : String) : Bool := blogPostAttrs.contains a

/-- The whole persistent store: the three tables. -/
structure DB where
  users : List User
  posts : List BlogPost
  comments : List Comment
deriving DecidableEq, Repr

def emptyDB : DB := ⟨[], [], []⟩

/-- SQLite assigns a fresh integer primary key as max(rowid) + 1. -/
def nextId (ids : List Nat) : Nat := ids.foldr max 0 + 1

/-- HTTP response of a handler.  The render constructors carry the data the
handler passes to the template; `fault` is an uncaught Python exception
(HTTP 500 from the WSGI server). -/
inductive Response where
  | renderIndex (all_posts : List BlogPost)
  | renderRegister
  | renderLogin
  | renderPost (post : Option BlogPost) (comments : List Comment)
  | renderMakePost
  | redirect (target : String)
  | abort (status : Nat)
  | fault (exn : String)
deriving DecidableEq, Repr

def Response.status : Response → Nat
  | .redirect _ => 302
  | .abort n => n
  | .fault _ => 500
  | _ => 200

/-- What a request leaves behind: the response, the store and session after
the request, and the flash messages pushed during it. -/
structure HandlerResult where
  response : Response
  db : DB
  session : Option Nat
  flashes : List String
deriving DecidableEq, Repr

/-- Validated fields of RegisterUserForm. -/
structure RegisterForm where
  name : String
  email : String
  password : String
deriving DecidableEq, Repr

/-- Validated fields of LoginUserForm. -/
structure LoginForm where
  email : String
  password : String
deriving DecidableEq, Repr

/-- Validated fields of CreatePostForm. -/
structure PostForm where
  title : String
  subtitle : String
  body : String
  img_url : String
deriving DecidableEq, Repr

/-- `current_user`: the `load_user` callback runs `User.query.get(id)` on the
session id; no matching record means the request proceeds as anonymous. -/
def current_user (s : DB) (sess : Option Nat) : Option User :=
  sess.bind (fun i => s.users.find? (fun u => u.id == i))

/-- The `admin_only` decorator: the wrapped handler runs only when
`current_user.is_authenticated and current_user.id == 1`; otherwise the
request is rejected with `abort(403)` before the handler is entered. -/
def admin_only (handler : DB → Option Nat → HandlerResult)
    (s : DB) (sess : Option Nat) : HandlerResult :=
  match current_user s sess with
  | some u => if u.id == 1 then handler s sess else ⟨.abort 403, s, sess, []⟩
  | none => ⟨.abort 403, s, sess, []⟩

/-- Route "/": loads all posts and renders the listing. -/
def get_all_posts (s : DB) (sess : Option Nat) : HandlerResult :=
  ⟨.renderIndex s.posts, s, sess, []⟩

def duplicateEmailMsg : String := "That email already exists. Please log in instead."

def loginFailMsg : String := "Account does not exist. Please double check your credentials."

def commentLoginMsg : String := "Please login before commenting"

/-- Route "/register".  An authenticated visitor is redirected home at once.
On a validated submission: if a user with the same email exists, flash and
redirect to login; otherwise create the user (password stored hashed),
log them in, and redirect home. -/
def register (genHash : String → String) (s : DB) (sess : Option Nat)
    (form : Option RegisterForm) : HandlerResult :=
  if (current_user s sess).isSome then
    ⟨.redirect "get_all_posts", s, sess, []⟩
  else
    match form with
    | some f =>
      match s.users.find? (fun u => u.email == f.email) with
      | some _ => ⟨.redirect "login", s, sess, [duplicateEmailMsg]⟩
      | none =>
        let uid := nextId (s.users.map (fun u => u.id))
        let new_user : User := ⟨uid, f.email, f.name, genHash f.password⟩
        ⟨.redirect "get_all_posts", { s with users := s.users ++ [new_user] }, some uid, []⟩
    | none => ⟨.renderRegister, s, sess, []⟩

/-- Route "/login".  An authenticated visitor is redirected home at once.
On a validated submission: look the user up by email; on a found user with a
verifying password, log in and redirect home; otherwise flash one fixed
message (the same whether the email or the password was wrong) and fall
through to re-render the login form. -/
def login (checkHash : String → String → Bool) (s : DB) (sess : Option Nat)
    (form : Option LoginForm) : HandlerResult :=
  if (current_user s sess).isSome then
    ⟨.redirect "get_all_posts", s, sess, []⟩
  else
    match form with
    | some f =>
      match s.users.find? (fun u => u.email == f.email) with
      | some u =>
        if checkHash u.password f.password then
          ⟨.redirect "get_all_posts", s, some u.id, []⟩
        else
          ⟨.renderLogin, s, sess, [loginFailMsg]⟩
      | none => ⟨.renderLogin, s, sess, [loginFailMsg]⟩
    | none => ⟨.renderLogin, s, sess, []⟩

/-- Route "/logout": `logout_user()` then redirect home.  In the source the
`@login_required` decorator sits above `@app.route`, so the endpoint that
Flask registered is the unwrapped function: the route is reachable by
anyone, and clears the session unconditionally. -/
def logout (s : DB) (_sess : Option Nat) : HandlerResult :=
  ⟨.redirect "get_all_posts", s, none, []⟩

/-- Route "/post/<post_id>".  Fetches the post by id without checking for
absence (a missing id leaves `requested_post` null and the page is rendered
with it).  A validated comment submission from an anonymous visitor flashes
and redirects to login; from an authenticated one it inserts a Comment built
from the URL id and the current user id — the post's existence is never
checked, and SQLite does not enforce the foreign key.  Finally the page is
rendered with all comments whose post_id matches. -/
def show_post (s : DB) (sess : Option Nat) (post_id : Nat)
    (form : Option String) : HandlerResult :=
  let requested_post := s.posts.find? (fun p => p.id == post_id)
  match form with
  | some text =>
    match current_user s sess with
    | none => ⟨.redirect "login", s, sess, [commentLoginMsg]⟩
    | some u =>
      let cid := nextId (s.comments.map (fun c => c.id))
      let new_comment : Comment := ⟨cid, text, u.id, post_id⟩
      let s2 := { s with comments := s.comments ++ [new_comment] }
      ⟨.renderPost requested_post (s2.comments.filter (fun c => c.post_id == post_id)),
        s2, sess, []⟩
  | none =>
    ⟨.renderPost requested_post (s.comments.filter (fun c => c.post_id == post_id)),
      s, sess, []⟩

/-- Handler body of "/new-post" (before the `admin_only` wrapper).  On a
validated submission builds a BlogPost stamped with today's date and
`current_user.id`; the commit hits the UNIQUE constraint on title when a
post with the same title already exists, and the IntegrityError is not
caught.  (`current_user.id` on an anonymous session would itself raise, but
the wrapper makes that branch unreachable.) -/
def add_new_post (today : String) (s : DB) (sess : Option Nat)
    (form : Option PostForm) : HandlerResult :=
  match form with
  | some f =>
    match current_user s sess with
    | some u =>
      if s.posts.any (fun p => p.title == f.title) then
        ⟨.fault "IntegrityError: UNIQUE constraint failed: blog_posts.title", s, sess, []⟩
      else
        let pid := nextId (s.posts.map (fun p => p.id))
        let new_post : BlogPost := ⟨pid, f.title, f.subtitle, today, f.body, f.img_url, u.id⟩
        ⟨.redirect "get_all_posts", { s with posts := s.posts ++ [new_post] }, sess, []⟩
    | none => ⟨.fault "AttributeError: AnonymousUserMixin has no attribute id", s, sess, []⟩
  | none => ⟨.renderMakePost, s, sess, []⟩

/-- The attributes `edit_post` reads off the fetched post while building
`CreatePostForm(title=..., subtitle=..., img_url=..., author=..., body=...)`. -/
def editFormAttrs : List String := ["title", "subtitle", "img_url", "author", "body"]

/-- Handler body of "/edit-post/<post_id>" (before the `admin_only`
wrapper).  Fetches the post without checking for absence: on a missing id
the first attribute read is on `None` and raises.  On an existing post the
form pre-fill reads the five attributes of `editFormAttrs`; `author` is not
an attribute of BlogPost, so that read raises AttributeError before
`validate_on_submit()` is ever reached.  The update-and-redirect code below
the pre-fill is therefore unreachable, exactly as in the source. -/
def edit_post (s : DB) (sess : Option Nat) (post_id : Nat)
    (form : Option PostForm) : HandlerResult :=
  match s.posts.find? (fun p => p.id == post_id) with
  | none => ⟨.fault "AttributeError: NoneType object has no attribute title", s, sess, []⟩
  | some _post =>
    if editFormAttrs.all blogPostHasAttr then
      match form with
      | some f =>
        let s2 := { s with posts := s.posts.map (fun q =>
          if q.id == post_id then
            { q with title := f.title, subtitle := f.subtitle,
                     img_url := f.img_url, body := f.body }
          else q) }
        ⟨.redirect "show_post", s2, sess, []⟩
      | none => ⟨.renderMakePost, s, sess, []⟩
    else
      ⟨.fault "AttributeError: BlogPost object has no attribute author", s, sess, []⟩

/-- Handler body of "/delete/<post_id>" (before the `admin_only` wrapper).
Fetches the post without checking for absence; `db.session.delete(None)`
raises.  On an existing post, deletes that row only (no cascade to its
comments) and redirects home. -/
def delete_post (s : DB) (sess : Option Nat) (post_id : Nat) : HandlerResult :=
  match s.posts.find? (fun p => p.id == post_id) with
  | none => ⟨.fault "UnmappedInstanceError: cannot delete None", s, sess, []⟩
  | some _ =>
    ⟨.redirect "get_all_posts",
      { s with posts := s.posts.filter (fun p => !(p.id == post_id)) }, sess, []⟩

/-- Route "/new-post" as dispatched: the handler wrapped in `admin_only`. -/
def add_new_post_route (today : String) (s : DB) (sess : Option Nat)
    (form : Option PostForm) : HandlerResult :=
  admin_only (fun s1 sess1 => add_new_post today s1 sess1 form) s sess

/-- Route "/edit-post/<post_id>" as dispatched: wrapped in `admin_only`. -/
def edit_post_route (s : DB) (sess : Option Nat) (post_id : Nat)
    (form : Option PostForm) : HandlerResult :=
  admin_only (fun s1 sess1 => edit_post s1 sess1 post_id form) s sess

/-- Route "/delete/<post_id>" as dispatched: wrapped in `admin_only`. -/
def delete_post_route (s : DB) (sess : Option Nat) (post_id : Nat) : HandlerResult :=
  admin_only (fun s1 sess1 => delete_post s1 sess1 post_id) s sess

/-- One inbound request, for reasoning about sequences of operations. -/
inductive Op where
  | opRegister (form : Option RegisterForm)
  | opLogin (form : Option LoginForm)
  | opLogout
  | opShowPost (post_id : Nat) (comment : Option String)
  | opAddNewPost (today : String) (form : Option PostForm)
  | opEditPost (post_id : Nat) (form : Option PostForm)
  | opDeletePost (post_id : Nat)
  | opGetAllPosts
deriving DecidableEq, Repr

/-- Dispatch one request against the store and session. -/
def step (genHash : String → String) (checkHash : String → String → Bool)
    (s : DB) (sess : Option Nat) : Op → HandlerResult
  | .opRegister f => register genHash s sess f
  | .opLogin f => login checkHash s sess f
  | .opLogout => logout s sess
  | .opShowPost pid c => show_post s sess pid c
  | .opAddNewPost today f => add_new_post_route today s sess f
  | .opEditPost pid f => edit_post_route s sess pid f
  | .opDeletePost pid => delete_post_route s sess pid
  | .opGetAllPosts => get_all_posts s sess

/-- Run a sequence of requests, threading store and session. -/
def run (genHash : String → String) (checkHash : String → String → Bool)
    (s : DB) (sess : Option Nat) : List Op → DB × Option Nat
  | [] => (s, sess)
  | op :: ops =>
    let r := step genHash checkHash s sess op
    run genHash checkHash r.db r.session ops

/-- Every stored Post and every stored Comment references exactly one
existing User (counted over the `user` table). -/
def userRefIntegrityB (s : DB) : Bool :=
  s.posts.all (fun p => s.users.countP (fun u => u.id == p.user_id) == 1) &&
  s.comments.all (fun c => s.users.countP (fun u => u.id == c.user_id) == 1)

/-- Full referential integrity as the spec states it: additionally every
stored Comment references exactly one existing Post. -/
def refIntegrityB (s : DB) : Bool :=
  userRefIntegrityB s &&
  s.comments.all (fun c => s.posts.countP (fun p => p.id == c.post_id) == 1)

/-! ## Concrete fixtures for witnesses and counterexamples -/

/-- A store holding only the first-registered user (the admin, id 1). -/
def adminUser : User := ⟨1, "admin@example.com", "Admin", "hash1"⟩

def dbWithAdmin : DB := ⟨[adminUser], [], []⟩

/-- An existing post owned by the admin. -/
def post1 : BlogPost := ⟨1, "Hello World", "Sub", "April 05, 2024", "Body text", "img.example/a.png", 1⟩

def dbWithPost : DB := ⟨[adminUser], [post1], []⟩

/-- A second registered user, not the admin. -/
def user2 : User := ⟨2, "bob@example.com", "Bob", "hash2"⟩

def dbTwoUsers : DB := ⟨[adminUser, user2], [post1], []⟩

/-- First admin creation of a post titled "Hello" from the store holding
only the admin. -/
def firstCreate : HandlerResult :=
  add_new_post_route "May 01, 2024" dbWithAdmin (some 1) (some ⟨"Hello", "S1", "B1", "U1"⟩)

/-- Second admin creation with the identical title, against the store left
by the first. -/
def secondCreate : HandlerResult :=
  add_new_post_route "May 02, 2024" firstCreate.db firstCreate.session
    (some ⟨"Hello", "S2", "B2", "U2"⟩)

/-- The primary key SQLite will assign to the next inserted post. -/
def assignedPostId (s : DB) : Nat := nextId (s.posts.map (fun p => p.id))

/-- Register a user, then submit a comment on post id 5 — an id with no
matching post.  The comment is persisted with a dangling post_id. -/
def danglingOps : List Op :=
  [Op.opRegister (some ⟨"Alice", "alice@example.com", "pw"⟩),
   Op.opShowPost 5 (some "hi")]

/-- Inductive strengthening of user-side referential integrity: user ids
are pairwise distinct, and every post and comment carries the id of some
stored user. -/
def Inv (s : DB) : Prop :=
  (s.users.map (fun u => u.id)).Nodup ∧
  (∀ p ∈ s.posts, p.user_id ∈ s.users.map (fun u => u.id)) ∧
  (∀ c ∈ s.comments, c.user_id ∈ s.users.map (fun u => u.id))

/-! ## Helper lemmas -/

/-- When the session does not rehydrate to the admin, `admin_only` rejects
with 403 and touches nothing. -/
theorem admin_only_denied (handler : DB → Option Nat → HandlerResult)
    (s : DB) (sess : Option Nat)
    (h : ∀ u, current_user s sess = some u → u.id ≠ 1) :
    admin_only handler s sess = ⟨.abort 403, s, sess, []⟩ := by
  unfold admin_only
  cases hc : current_user s sess with
  | none => rfl
  | some u =>
    have hne : u.id ≠ 1 := h u hc
    have hb : (u.id == 1) = false := by simpa using hne
    simp [hb]

/-- On an existing post, the `edit_post` handler body raises AttributeError
while pre-filling the form (BlogPost has no `author` attribute) and leaves
the store untouched. -/
theorem edit_post_found_fault (s : DB) (sess : Option Nat) (pid : Nat)
    (form : Option PostForm) (p : BlogPost)
    (hp : s.posts.find? (fun q => q.id == pid) = some p) :
    edit_post s sess pid form =
      ⟨.fault "AttributeError: BlogPost object has no attribute author", s, sess, []⟩ := by
  unfold edit_post
  rw [hp]
  rfl

theorem le_foldr_max (a : Nat) (l : List Nat) (ha : a ∈ l) : a ≤ l.foldr max 0 := by
  induction l with
  | nil => cases ha
  | cons b t ih =>
    rw [List.foldr_cons]
    rcases List.mem_cons.mp ha with h1 | h1
    · subst h1
      exact Nat.le_max_left _ _
    · exact Nat.le_trans (ih h1) (Nat.le_max_right _ _)

/-- A session that rehydrates to a user rehydrates to a stored user. -/
theorem current_user_mem (s : DB) (sess : Option Nat) (u : User)
    (h : current_user s sess = some u) : u ∈ s.users := by
  unfold current_user at h
  cases sess with
  | none => cases h
  | some i => exact List.mem_of_find?_eq_some h

/-- Appending a user with the freshly assigned id preserves `Inv`. -/
theorem Inv_append_user (s : DB) (nu : User)
    (hid : nu.id = nextId (s.users.map (fun u => u.id)))
    (h : Inv s) : Inv { s with users := s.users ++ [nu] } := by
  obtain ⟨hnd, hp, hc⟩ := h
  have hfresh : ∀ a ∈ s.users.map (fun u => u.id), a ≠ nu.id := by
    intro a ha
    have h1 := le_foldr_max a _ ha
    rw [hid]
    unfold nextId
    omega
  refine ⟨?_, ?_, ?_⟩
  · rw [List.map_append]
    refine List.Nodup.append hnd (List.nodup_singleton _) ?_
    intro a ha hb
    rw [List.map_singleton, List.mem_singleton] at hb
    exact hfresh a ha hb
  · intro p hp2
    rw [List.map_append]
    exact List.mem_append_left _ (hp p hp2)
  · intro c hc2
    rw [List.map_append]
    exact List.mem_append_left _ (hc c hc2)

/-- Appending a post owned by a stored user preserves `Inv`. -/
theorem Inv_append_post (s : DB) (np : BlogPost)
    (hmem : np.user_id ∈ s.users.map (fun u => u.id))
    (h : Inv s) : Inv { s with posts := s.posts ++ [np] } := by
  obtain ⟨hnd, hp, hc⟩ := h
  refine ⟨hnd, ?_, hc⟩
  intro p hp2
  rcases List.mem_append.mp hp2 with h1 | h1
  · exact hp p h1
  · rw [List.mem_singleton] at h1
    subst h1
    exact hmem

/-- Appending a comment authored by a stored user preserves `Inv`. -/
theorem Inv_append_comment (s : DB) (nc : Comment)
    (hmem : nc.user_id ∈ s.users.map (fun u => u.id))
    (h : Inv s) : Inv { s with comments := s.comments ++ [nc] } := by
  obtain ⟨hnd, hp, hc⟩ := h
  refine ⟨hnd, hp, ?_⟩
  intro c hc2
  rcases List.mem_append.mp hc2 with h1 | h1
  · exact hc c h1
  · rw [List.mem_singleton] at h1
    subst h1
    exact hmem

/-- Removing posts preserves `Inv`. -/
theorem Inv_filter_posts (s : DB) (pred : BlogPost → Bool) (h : Inv s) :
    Inv { s with posts := s.posts.filter pred } := by
  obtain ⟨hnd, hp, hc⟩ := h
  exact ⟨hnd, fun p hp2 => hp p (List.mem_of_mem_filter hp2), hc⟩

/-- The login handler never writes to storage. -/
theorem login_db (checkHash : String → String → Bool) (s : DB)
    (sess : Option Nat) (f : Option LoginForm) : (login checkHash s sess f).db = s := by
  unfold login
  split
  · rfl
  · split
    · split
      · split <;> rfl
      · rfl
    · rfl

/-- The edit handler never writes to storage (it faults first). -/
theorem edit_post_db (s : DB) (sess : Option Nat) (pid : Nat)
    (f : Option PostForm) : (edit_post s sess pid f).db = s := by
  cases hfind : s.posts.find? (fun q => q.id == pid) with
  | none =>
    unfold edit_post
    rw [hfind]
  | some p =>
    rw [edit_post_found_fault s sess pid f p hfind]

/-- `admin_only` preserves `Inv` whenever the wrapped handler does. -/
theorem admin_only_Inv (handler : DB → Option Nat → HandlerResult)
    (s : DB) (sess : Option Nat)
    (hh : ∀ s1 sess1, Inv s1 → Inv (handler s1 sess1).db)
    (h : Inv s) : Inv (admin_only handler s sess).db := by
  unfold admin_only
  split
  · split
    · exact hh _ _ h
    · exact h
  · exact h

/-- Every dispatched request preserves `Inv`. -/
theorem step_preserves_Inv (genHash : String → String)
    (checkHash : String → String → Bool) (s : DB) (sess : Option Nat)
    (op : Op) (h : Inv s) : Inv (step genHash checkHash s sess op).db := by
  cases op with
  | opRegister f =>
    show Inv (register genHash s sess f).db
    unfold register
    split
    · exact h
    · split
      · split
        · exact h
        · exact Inv_append_user s _ rfl h
      · exact h
  | opLogin f =>
    show Inv (login checkHash s sess f).db
    rw [login_db]
    exact h
  | opLogout => exact h
  | opShowPost pid c =>
    show Inv (show_post s sess pid c).db
    unfold show_post
    dsimp only
    split
    · split
      · exact h
      · next u heq =>
        exact Inv_append_comment s _
          (List.mem_map_of_mem _ (current_user_mem s sess u heq)) h
    · exact h
  | opAddNewPost today f =>
    show Inv (add_new_post_route today s sess f).db
    unfold add_new_post_route
    refine admin_only_Inv _ s sess ?_ h
    intro s1 sess1 h1
    unfold add_new_post
    split
    · split
      · split
        · exact h1
        · rename_i u heq hcond
          exact Inv_append_post s1 _
            (List.mem_map_of_mem _ (current_user_mem s1 sess1 u heq)) h1
      · exact h1
    · exact h1
  | opEditPost pid f =>
    show Inv (edit_post_route s sess pid f).db
    unfold edit_post_route
    refine admin_only_Inv _ s sess ?_ h
    intro s1 sess1 h1
    rw [edit_post_db]
    exact h1
  | opDeletePost pid =>
    show Inv (delete_post_route s sess pid).db
    unfold delete_post_route
    refine admin_only_Inv _ s sess ?_ h
    intro s1 sess1 h1
    unfold delete_post
    split
    · exact h1
    · exact Inv_filter_posts s1 _ h1
  | opGetAllPosts => exact h

/-- `Inv` is preserved along any sequence of requests. -/
theorem run_preserves_Inv (genHash : String → String)
    (checkHash : String → String → Bool) (ops : List Op) (s : DB)
    (sess : Option Nat) (h : Inv s) :
    Inv (run genHash checkHash s sess ops).1 := by
  induction ops generalizing s sess with
  | nil => exact h
  | cons op ops ih =>
    exact ih _ _ (step_preserves_Inv genHash checkHash s sess op h)

/-- `Inv` implies the boolean user-side integrity check. -/
theorem Inv_userRefIntegrityB (s : DB) (h : Inv s) : userRefIntegrityB s = true := by
  obtain ⟨hnd, hp, hc⟩ := h
  have hcount : ∀ a : Nat, a ∈ s.users.map (fun u => u.id) →
      s.users.countP (fun u => u.id == a) = 1 := by
    intro a ha
    have h1 : (s.users.map (fun u => u.id)).count a = 1 :=
      List.count_eq_one_of_mem hnd ha
    rw [List.count_eq_countP, List.countP_map] at h1
    exact h1
  unfold userRefIntegrityB
  rw [Bool.and_eq_true, List.all_eq_true, List.all_eq_true]
  constructor
  · intro p hp2
    have := hcount p.user_id (hp p hp2)
    simpa using this
  · intro c hc2
    have := hcount c.user_id (hc c hc2)
    simpa using this

/-! ## Claim theorems -/

/-- C1: any request to a post-mutation route (new post, edit, delete) whose
session is anonymous or rehydrates to a user whose id is not 1 is answered
with HTTP 403 and leaves users, posts, comments, session and flashes exactly
as they were: the guard rejects before the handler body can touch storage. -/
theorem admin_guard_rejects_nonadmin (s : DB) (sess : Option Nat)
    (h : ∀ u, current_user s sess = some u → u.id ≠ 1) :
    (∀ today form, add_new_post_route today s sess form = ⟨.abort 403, s, sess, []⟩) ∧
    (∀ pid form, edit_post_route s sess pid form = ⟨.abort 403, s, sess, []⟩) ∧
    (∀ pid, delete_post_route s sess pid = ⟨.abort 403, s, sess, []⟩) ∧
    (Response.abort 403).status = 403 := by
  refine ⟨?_, ?_, ?_, rfl⟩
  · intro today form
    exact admin_only_denied _ s sess h
  · intro pid form
    exact admin_only_denied _ s sess h
  · intro pid
    exact admin_only_denied _ s sess h

/-- Witness for C1: the non-admin user 2, logged in, is rejected by all
three routes on a concrete store. -/
theorem admin_guard_rejects_nonadmin_witness :
    (add_new_post_route "May 01, 2024" dbTwoUsers (some 2) (some ⟨"T", "S", "B", "U"⟩)
        = ⟨.abort 403, dbTwoUsers, some 2, []⟩) ∧
    (edit_post_route dbTwoUsers (some 2) 1 none = ⟨.abort 403, dbTwoUsers, some 2, []⟩) ∧
    (delete_post_route dbTwoUsers (some 2) 1 = ⟨.abort 403, dbTwoUsers, some 2, []⟩) := by
  have h := admin_guard_rejects_nonadmin dbTwoUsers (some 2)
    (by
      intro u hu
      rw [show current_user dbTwoUsers (some 2) = some user2 from by decide] at hu
      injection hu with h2
      rw [← h2]
      decide)
  exact ⟨h.1 "May 01, 2024" (some ⟨"T", "S", "B", "U"⟩), h.2.1 1 none, h.2.2.1 1⟩

/-- C2 (divergence witness): at a post id with no matching post, none of the
three routes produces a 404.  `show_post` renders the page with a null post
(HTTP 200); `edit_post` raises AttributeError on the null post (HTTP 500);
`delete_post` raises when handed None to delete (HTTP 500). -/
theorem missing_post_no_404 :
    (show_post dbWithAdmin (some 1) 7 none).response = .renderPost none [] ∧
    (show_post dbWithAdmin (some 1) 7 none).response.status = 200 ∧
    (edit_post_route dbWithAdmin (some 1) 7 none).response
      = .fault "AttributeError: NoneType object has no attribute title" ∧
    (edit_post_route dbWithAdmin (some 1) 7 none).response.status = 500 ∧
    (delete_post_route dbWithAdmin (some 1) 7).response
      = .fault "UnmappedInstanceError: cannot delete None" ∧
    (delete_post_route dbWithAdmin (some 1) 7).response.status = 500 := by
  decide

/-- C7: logout is idempotent from any starting store and session: after the
first call the session is anonymous and the response redirects to the
listing, and a second call does the same. -/
theorem logout_idempotent (s : DB) (sess : Option Nat) :
    logout s sess = ⟨.redirect "get_all_posts", s, none, []⟩ ∧
    logout (logout s sess).db (logout s sess).session
      = ⟨.redirect "get_all_posts", s, none, []⟩ ∧
    current_user (logout s sess).db (logout s sess).session = none := by
  exact ⟨rfl, rfl, rfl⟩

/-- C8 (divergence witness): an admin POST to the edit route on an existing
post does not overwrite anything and does not redirect to the post's page —
it raises AttributeError on `post.author` (HTTP 500) and leaves the store
unchanged. -/
theorem edit_post_admin_faults_concrete :
    (edit_post_route dbWithPost (some 1) 1 (some ⟨"T2", "S2", "B2", "U2"⟩)).response
      = .fault "AttributeError: BlogPost object has no attribute author" ∧
    (edit_post_route dbWithPost (some 1) 1 (some ⟨"T2", "S2", "B2", "U2"⟩)).db = dbWithPost ∧
    (edit_post_route dbWithPost (some 1) 1 (some ⟨"T2", "S2", "B2", "U2"⟩)).response.status = 500 := by
  decide

/-- C10: for every admin request (GET or validated POST) to the edit route
naming an existing post, the handler faults with AttributeError (BlogPost
defines no `author` attribute) before rendering or mutating anything: the
edit route can never complete successfully. -/
theorem edit_post_always_faults (s : DB) (sess : Option Nat) (pid : Nat)
    (form : Option PostForm) (u : User) (p : BlogPost)
    (hu : current_user s sess = some u) (hadmin : u.id = 1)
    (hp : s.posts.find? (fun q => q.id == pid) = some p) :
    edit_post_route s sess pid form =
      ⟨.fault "AttributeError: BlogPost object has no attribute author", s, sess, []⟩ := by
  unfold edit_post_route admin_only
  rw [hu]
  have hb : (u.id == 1) = true := by simpa using hadmin
  simp only [hb, if_true]
  exact edit_post_found_fault s sess pid form p hp

/-- C3 counterexample: a duplicate-email registration submission from an
already-authenticated session is answered with a redirect to the post
listing and no flash — not with a redirect to the login page — because the
handler returns before ever reading the form. -/
theorem register_duplicate_authed_counterexample :
    (register (fun p => p) dbWithAdmin (some 1)
        (some ⟨"Bob", "admin@example.com", "pw"⟩)).response = .redirect "get_all_posts" ∧
    (register (fun p => p) dbWithAdmin (some 1)
        (some ⟨"Bob", "admin@example.com", "pw"⟩)).response ≠ .redirect "login" ∧
    (register (fun p => p) dbWithAdmin (some 1)
        (some ⟨"Bob", "admin@example.com", "pw"⟩)).flashes = [] := by
  decide

/-- C3 (amended): a validated registration submission from an anonymous
session whose email equals the email of a stored User creates no user,
leaves store and session unchanged, flashes the duplicate-email message and
redirects to the login page. -/
theorem register_duplicate_email_anon (genHash : String → String) (s : DB)
    (sess : Option Nat) (f : RegisterForm)
    (hanon : current_user s sess = none)
    (hdup : ∃ u ∈ s.users, u.email = f.email) :
    register genHash s sess (some f) = ⟨.redirect "login", s, sess, [duplicateEmailMsg]⟩ := by
  unfold register
  rw [hanon]
  simp only [Option.isSome_none, Bool.false_eq_true, if_false]
  have hs : (s.users.find? (fun u => u.email == f.email)).isSome := by
    rw [List.find?_isSome]
    obtain ⟨u, hu, he⟩ := hdup
    exact ⟨u, hu, by simpa using he⟩
  obtain ⟨u, hu⟩ := Option.isSome_iff_exists.mp hs
  rw [hu]

/-- Witness for amended C3: re-registering the admin email anonymously. -/
theorem register_duplicate_email_anon_witness :
    register (fun p => p) dbWithAdmin none (some ⟨"Bob", "admin@example.com", "pw"⟩)
      = ⟨.redirect "login", dbWithAdmin, none, [duplicateEmailMsg]⟩ :=
  register_duplicate_email_anon (fun p => p) dbWithAdmin none
    ⟨"Bob", "admin@example.com", "pw"⟩ (by decide) (by decide)

/-- C4 counterexample: a failing login submission from an already-
authenticated session is answered with a redirect to the post listing, not
with a re-render of the login form. -/
theorem login_failure_authed_counterexample :
    (login (fun h p => h == p) dbWithAdmin (some 1)
        (some ⟨"nobody@example.com", "x"⟩)).response = .redirect "get_all_posts" ∧
    (login (fun h p => h == p) dbWithAdmin (some 1)
        (some ⟨"nobody@example.com", "x"⟩)).response ≠ .renderLogin := by
  decide

/-- C4 (amended): a validated login submission from an anonymous session
whose email matches no stored User, or matches one whose stored hash does
not verify against the submitted password, establishes no session, leaves
the store unchanged, re-renders the login form (no redirect), and flashes
one fixed message — the same string in both failure cases, revealing
nothing about which field was wrong. -/
theorem login_failure_rerenders_generic (checkHash : String → String → Bool)
    (s : DB) (sess : Option Nat) (f : LoginForm)
    (hanon : current_user s sess = none)
    (hfail : ∀ u, s.users.find? (fun x => x.email == f.email) = some u →
      checkHash u.password f.password = false) :
    login checkHash s sess (some f) = ⟨.renderLogin, s, sess, [loginFailMsg]⟩ := by
  unfold login
  rw [hanon]
  simp only [Option.isSome_none, Bool.false_eq_true, if_false]
  cases hfind : s.users.find? (fun x => x.email == f.email) with
  | none => rfl
  | some u =>
    have hc := hfail u hfind
    simp [hc]

/-- Witness for amended C4: right email, wrong password, anonymous session. -/
theorem login_failure_rerenders_generic_witness :
    login (fun h p => h == p) dbWithAdmin none (some ⟨"admin@example.com", "wrongpw"⟩)
      = ⟨.renderLogin, dbWithAdmin, none, [loginFailMsg]⟩ :=
  login_failure_rerenders_generic (fun h p => h == p) dbWithAdmin none
    ⟨"admin@example.com", "wrongpw"⟩ (by decide)
    (by
      intro u hu
      have h3 : (some u : Option User) = some adminUser := by
        rw [← hu]
        decide
      injection h3 with h4
      rw [h4]
      decide)

/-- C5 (divergence witness): the first creation succeeds; the second
submission with the identical title hits the UNIQUE constraint and the
IntegrityError escapes uncaught (HTTP 500) instead of being translated into
a recoverable ValidationError; exactly one post with that title remains. -/
theorem duplicate_title_second_leaks_raw_error :
    firstCreate.response = .redirect "get_all_posts" ∧
    secondCreate.response = .fault "IntegrityError: UNIQUE constraint failed: blog_posts.title" ∧
    secondCreate.response.status = 500 ∧
    secondCreate.db.posts.countP (fun p => p.title == "Hello") = 1 := by
  decide

/-- `find?` over a list extended with a post carrying a fresh id finds
exactly the new post. -/
theorem find?_append_fresh (posts : List BlogPost) (np : BlogPost) (pid : Nat)
    (hid : np.id = pid) (h : ∀ p ∈ posts, p.id ≠ pid) :
    (posts ++ [np]).find? (fun q => q.id == pid) = some np := by
  rw [List.find?_append]
  have h1 : posts.find? (fun q => q.id == pid) = none :=
    List.find?_eq_none.mpr (by intro x hx; simpa using h x hx)
  rw [h1, Option.none_or]
  exact List.find?_cons_of_pos _ (by simpa using hid)

/-- Existing post ids are strictly below the next assigned id. -/
theorem post_id_ne_assigned (s : DB) (p : BlogPost) (hp : p ∈ s.posts) :
    p.id ≠ assignedPostId s := by
  have h2 : p.id ∈ s.posts.map (fun q => q.id) := List.mem_map_of_mem _ hp
  have h3 := le_foldr_max p.id _ h2
  unfold assignedPostId nextId
  omega

/-- C6: with an admin session and a title not yet in storage, creating a
post with title T, subtitle S, body B and image url G succeeds: the store
gains exactly the new post under the freshly assigned id, the listing shows
it with that id and title, and fetching its view page by the assigned id
renders that post, with subtitle S and body B. -/
theorem create_then_fetch_roundtrip (s : DB) (sess : Option Nat) (u : User)
    (today T S B G : String)
    (hu : current_user s sess = some u) (hadmin : u.id = 1)
    (hfresh : s.posts.any (fun p => p.title == T) = false) :
    add_new_post_route today s sess (some ⟨T, S, B, G⟩) =
      ⟨.redirect "get_all_posts",
        { s with posts := s.posts ++ [⟨assignedPostId s, T, S, today, B, G, u.id⟩] },
        sess, []⟩ ∧
    (get_all_posts (add_new_post_route today s sess (some ⟨T, S, B, G⟩)).db sess).response
      = .renderIndex (s.posts ++ [⟨assignedPostId s, T, S, today, B, G, u.id⟩]) ∧
    (⟨assignedPostId s, T, S, today, B, G, u.id⟩ : BlogPost)
      ∈ (add_new_post_route today s sess (some ⟨T, S, B, G⟩)).db.posts ∧
    (show_post (add_new_post_route today s sess (some ⟨T, S, B, G⟩)).db sess
        (assignedPostId s) none).response
      = .renderPost (some ⟨assignedPostId s, T, S, today, B, G, u.id⟩)
          (s.comments.filter (fun c => c.post_id == assignedPostId s)) := by
  have hb : (u.id == 1) = true := by simpa using hadmin
  have hr : add_new_post_route today s sess (some ⟨T, S, B, G⟩) =
      ⟨.redirect "get_all_posts",
        { s with posts := s.posts ++ [⟨assignedPostId s, T, S, today, B, G, u.id⟩] },
        sess, []⟩ := by
    unfold add_new_post_route admin_only
    rw [hu]
    simp only [hb, if_true]
    unfold add_new_post
    dsimp only
    rw [hu]
    dsimp only
    simp only [hfresh, Bool.false_eq_true, if_false]
    rfl
  refine ⟨hr, ?_, ?_, ?_⟩
  · rw [hr]
    rfl
  · rw [hr]
    exact List.mem_append_right _ (List.mem_singleton_self _)
  · rw [hr]
    unfold show_post
    dsimp only
    rw [find?_append_fresh _ _ (assignedPostId s) rfl (fun p hp => post_id_ne_assigned s p hp)]

/-- Witness for C6: creating "T"/"S"/"B"/"U" as the admin on a store with
no posts and then fetching post 1 renders it back. -/
theorem create_then_fetch_roundtrip_witness :
    (show_post (add_new_post_route "May 01, 2024" dbWithAdmin (some 1)
        (some ⟨"T", "S", "B", "U"⟩)).db (some 1) (assignedPostId dbWithAdmin) none).response
      = .renderPost
          (some ⟨assignedPostId dbWithAdmin, "T", "S", "May 01, 2024", "B", "U", adminUser.id⟩)
          (dbWithAdmin.comments.filter (fun c => c.post_id == assignedPostId dbWithAdmin)) :=
  (create_then_fetch_roundtrip dbWithAdmin (some 1) adminUser "May 01, 2024" "T" "S" "B" "U"
    (by decide) (by decide) (by decide)).2.2.2

/-- C9 counterexample: registering a user and then submitting a comment on
post id 5 — an id with no matching post — persists a Comment whose post_id
references no stored Post, so full referential integrity fails after this
operation sequence. -/
theorem ref_integrity_counterexample :
    refIntegrityB (run (fun p => p) (fun h p => h == p) emptyDB none danglingOps).1 = false ∧
    (run (fun p => p) (fun h p => h == p) emptyDB none danglingOps).1.comments
      = [⟨1, "hi", 1, 5⟩] ∧
    (run (fun p => p) (fun h p => h == p) emptyDB none danglingOps).1.posts = [] := by
  decide

/-- C9 (amended): after every sequence of operations from a fresh store,
every stored Comment references exactly one existing User and every stored
Post references exactly one existing User; a Comment's referenced Post,
however, need not exist. -/
theorem user_ref_integrity_any_run (genHash : String → String)
    (checkHash : String → String → Bool) (ops : List Op) :
    userRefIntegrityB (run genHash checkHash emptyDB none ops).1 = true :=
  Inv_userRefIntegrityB _ (run_preserves_Inv genHash checkHash ops emptyDB none
    ⟨List.nodup_nil, fun p hp => absurd hp (List.not_mem_nil p),
      fun c hc => absurd hc (List.not_mem_nil c)⟩)

/-- Witness for C10: the admin GET on existing post 1 faults. -/
theorem edit_post_always_faults_witness :
    edit_post_route dbWithPost (some 1) 1 none =
      ⟨.fault "AttributeError: BlogPost object has no attribute author",
        dbWithPost, some 1, []⟩ :=
  edit_post_always_faults dbWithPost (some 1) 1 none adminUser post1
    (by decide) (by decide) (by decide)

end SimpleBlog
